import Mathlib

/-!
Verification of core behaviors of a container-daemon implementation
(docker 1.2.0 era): signal trapping, boot-time container restore,
the bridge network driver's iptables setup and per-container
allocate/release/port handlers, container name generation, and daemon
configuration validation.

Each Go function relevant to a verified property is shallowly embedded
as a pure Lean function; mutable package state (interface maps, iptables
rulesets, the name graph) is threaded explicitly, and external effects
(process termination, disk writes, iptables invocations) are recorded as
explicit effect values.
-/

set_option maxHeartbeats 1000000

/-! ## Signal trap (pkg/signal/trap.go)

`Trap(cleanup)` registers a handler for SIGINT and SIGTERM, and for
SIGQUIT only when the environment variable DEBUG is empty.  The handler
keeps a counter `interruptCount` of INT/TERM signals received.
-/

/-- Signals relevant to the trap: SIGINT (2), SIGTERM (15), SIGQUIT (3). -/
inductive Sig
  | SIGINT
  | SIGTERM
  | SIGQUIT
deriving DecidableEq, Repr

/-- Numeric value of each signal, as used in `os.Exit(128 + int(sig))`. -/
def sigNum : Sig → Nat
  | .SIGINT => 2
  | .SIGTERM => 15
  | .SIGQUIT => 3

/-- Action the trap goroutine takes for one received signal:
either it calls the cleanup function and then exits 0, or it returns from
the handler without exiting (signals 2 and 3), or it exits immediately
with the given status code, skipping cleanup. -/
inductive TrapAction
  | cleanupThenExitZero
  | returnNoExit
  | forceExit (code : Nat)
deriving DecidableEq, Repr

/-- Embedding of the `switch sig` body of the goroutine in `Trap`
(pkg/signal/trap.go lines 39-57).  Input: current `interruptCount` and the
received signal; output: updated counter and the action taken.
For INT/TERM: if the counter is below 3 it is incremented, cleanup starts
only when the incremented counter equals 1, otherwise the handler returns;
if the counter is already at least 3 the handler falls through to
`os.Exit(128+sig)`.  SIGQUIT always falls through to `os.Exit(128+3)`. -/
def handleSignal (interruptCount : Nat) (sig : Sig) : Nat × TrapAction :=
  match sig with
  | .SIGINT | .SIGTERM =>
      if interruptCount < 3 then
        let c := interruptCount + 1
        if c = 1 then
          (c, .cleanupThenExitZero)
        else
          (c, .returnNoExit)
      else
        (interruptCount, .forceExit (128 + sigNum sig))
  | .SIGQUIT => (interruptCount, .forceExit (128 + sigNum .SIGQUIT))

/-- Process a sequence of signals delivered before cleanup completes,
threading the `interruptCount` and collecting the action taken for each
signal. Returns the final counter and the list of actions. -/
def trapProcess (interruptCount : Nat) : List Sig → Nat × List TrapAction
  | [] => (interruptCount, [])
  | s :: rest =>
      let (c, a) := handleSignal interruptCount s
      let (cEnd, as) := trapProcess c rest
      (cEnd, a :: as)

/-- Set of signals the trap subscribes to (`gosignal.Notify`): SIGINT and
SIGTERM always; SIGQUIT only when the environment variable DEBUG is the
empty string (trap.go lines 25-28).  A signal outside this list keeps its
default disposition. -/
def trappedSignals (debug : String) : List Sig :=
  [Sig.SIGINT, Sig.SIGTERM] ++ (if debug = "" then [Sig.SIGQUIT] else [])

/-- Recognizer for the immediate-exit-without-cleanup action. -/
def TrapAction.isForceExit : TrapAction → Bool
  | .forceExit _ => true
  | _ => false

/-- Evaluation of `handleSignal` on SIGINT/SIGTERM while the counter is
still below 3: the counter is incremented, cleanup is initiated exactly on
the first signal, and later signals just return. -/
lemma handleSignal_intTerm_lt (count : Nat) (hc : count < 3) (s : Sig)
    (hs : s = Sig.SIGINT ∨ s = Sig.SIGTERM) :
    handleSignal count s =
      (count + 1,
        if count + 1 = 1 then TrapAction.cleanupThenExitZero
        else TrapAction.returnNoExit) := by
  rcases hs with rfl | rfl <;> by_cases h0 : count = 0 <;>
    simp [handleSignal, hc, h0]

/-- Evaluation of `handleSignal` on SIGINT/SIGTERM once the counter has
reached 3: the handler falls through to `os.Exit(128+sig)`. -/
lemma handleSignal_intTerm_ge (count : Nat) (hc : 3 ≤ count) (s : Sig)
    (hs : s = Sig.SIGINT ∨ s = Sig.SIGTERM) :
    handleSignal count s = (count, TrapAction.forceExit (128 + sigNum s)) := by
  rcases hs with rfl | rfl <;> simp [handleSignal, Nat.not_lt.mpr hc]

/-- Processing a concatenation of signal sequences composes. -/
lemma trapProcess_append (count : Nat) (xs ys : List Sig) :
    trapProcess count (xs ++ ys) =
      ((trapProcess (trapProcess count xs).1 ys).1,
        (trapProcess count xs).2 ++ (trapProcess (trapProcess count xs).1 ys).2) := by
  induction xs generalizing count with
  | nil => simp [trapProcess]
  | cons s rest ih => simp [trapProcess, ih]

/-- On a sequence of at most `3 - count` further SIGINT/SIGTERM signals,
the counter just counts the signals and no action is a forced exit. -/
lemma trapProcess_intTerm_le_three (sigs : List Sig)
    (h : ∀ s ∈ sigs, s = Sig.SIGINT ∨ s = Sig.SIGTERM) :
    ∀ count, count + sigs.length ≤ 3 →
      (trapProcess count sigs).1 = count + sigs.length ∧
      ((trapProcess count sigs).2.all fun a => !a.isForceExit) = true := by
  induction sigs with
  | nil => intro count _; simp [trapProcess]
  | cons s rest ih =>
      intro count hcount
      have hs : s = Sig.SIGINT ∨ s = Sig.SIGTERM := h s (by simp)
      have hlt : count < 3 := by simp at hcount; omega
      have hrest : ∀ x ∈ rest, x = Sig.SIGINT ∨ x = Sig.SIGTERM := fun x hx =>
        h x (List.mem_cons_of_mem _ hx)
      have hrc : count + 1 + rest.length ≤ 3 := by simp at hcount ⊢; omega
      obtain ⟨h1, h2⟩ := ih hrest (count + 1) hrc
      rw [trapProcess, handleSignal_intTerm_lt count hlt s hs]
      refine ⟨by simpa [h1] using by omega, ?_⟩
      by_cases hone : count + 1 = 1 <;> simp_all [TrapAction.isForceExit]

/-- C2 (amended): with at most three SIGINT/SIGTERM signals the trap never
forces an exit (the first calls cleanup, the second and third only
increment the counter), and once exactly three have arrived, a fourth
SIGINT/SIGTERM makes the handler exit immediately with status `128+sig`,
skipping cleanup. -/
theorem trap_force_exit_on_fourth_signal (sigs : List Sig) (s4 : Sig)
    (h : ∀ s ∈ sigs, s = Sig.SIGINT ∨ s = Sig.SIGTERM)
    (h4 : s4 = Sig.SIGINT ∨ s4 = Sig.SIGTERM) (hlen : sigs.length ≤ 3) :
    ((trapProcess 0 sigs).2.all fun a => !a.isForceExit) = true ∧
    (sigs.length = 3 →
      (trapProcess 0 (sigs ++ [s4])).2 =
        (trapProcess 0 sigs).2 ++ [TrapAction.forceExit (128 + sigNum s4)]) := by
  obtain ⟨hc, hall⟩ := trapProcess_intTerm_le_three sigs h 0 (by omega)
  refine ⟨hall, fun h3 => ?_⟩
  rw [trapProcess_append]
  have hcount3 : (trapProcess 0 sigs).1 = 3 := by omega
  rw [hcount3]
  simp [trapProcess, handleSignal_intTerm_ge 3 (le_refl 3) s4 h4]

/-- Witness for `trap_force_exit_on_fourth_signal` at the concrete
sequence SIGTERM, SIGTERM, SIGTERM followed by SIGINT. -/
theorem trap_force_exit_on_fourth_signal_witness :
    ((trapProcess 0 [Sig.SIGTERM, Sig.SIGTERM, Sig.SIGTERM]).2.all
        fun a => !a.isForceExit) = true ∧
    (([Sig.SIGTERM, Sig.SIGTERM, Sig.SIGTERM] : List Sig).length = 3 →
      (trapProcess 0 ([Sig.SIGTERM, Sig.SIGTERM, Sig.SIGTERM] ++ [Sig.SIGINT])).2 =
        (trapProcess 0 [Sig.SIGTERM, Sig.SIGTERM, Sig.SIGTERM]).2 ++
          [TrapAction.forceExit (128 + sigNum Sig.SIGINT)]) :=
  trap_force_exit_on_fourth_signal _ _ (by decide) (by decide) (by decide)

/-- C2 (counterexample to the claim as stated): three SIGTERM signals do
not force an immediate exit: the first starts cleanup and the second and
third merely return, so cleanup is never interrupted. -/
theorem trap_three_sigterm_no_force_exit :
    trapProcess 0 [Sig.SIGTERM, Sig.SIGTERM, Sig.SIGTERM] =
      (3, [TrapAction.cleanupThenExitZero, TrapAction.returnNoExit,
           TrapAction.returnNoExit]) := by decide

/-- C3 (counterexample to the claim as stated): with DEBUG unset (empty),
SIGQUIT is trapped, and the handler exits immediately with status 131
without running cleanup — refuting that SIGQUIT is not handled as an
immediate no-cleanup exit when DEBUG is not set. -/
theorem sigquit_exits_without_cleanup_when_debug_unset :
    Sig.SIGQUIT ∈ trappedSignals "" ∧
    handleSignal 0 Sig.SIGQUIT = (0, TrapAction.forceExit 131) := by decide

/-- C3 (amended): when DEBUG is set (non-empty) SIGQUIT is not trapped at
all, so the runtime default disposition terminates the process without
cleanup; when DEBUG is unset SIGQUIT is trapped, and the trap handler
exits immediately with status 131 — in both cases cleanup never runs. -/
theorem sigquit_handling_by_debug (debug : String) (count : Nat) :
    (debug ≠ "" → Sig.SIGQUIT ∉ trappedSignals debug) ∧
    (debug = "" → Sig.SIGQUIT ∈ trappedSignals debug) ∧
    handleSignal count Sig.SIGQUIT = (count, TrapAction.forceExit 131) := by
  refine ⟨fun hne => ?_, fun he => ?_, by simp [handleSignal, sigNum]⟩
  · simp [trappedSignals, hne]
  · simp [trappedSignals, he]

/-- Witness for `sigquit_handling_by_debug` at DEBUG set to a non-empty
value. -/
theorem sigquit_handling_by_debug_witness :
    (("1" : String) ≠ "" → Sig.SIGQUIT ∉ trappedSignals "1") ∧
    (("1" : String) = "" → Sig.SIGQUIT ∈ trappedSignals "1") ∧
    handleSignal 0 Sig.SIGQUIT = (0, TrapAction.forceExit 131) :=
  sigquit_handling_by_debug "1" 0

/-! ## Bridge network driver state (daemon/networkdriver/bridge/driver.go)

The driver keeps a package-global map `currentInterfaces` from container
id to `networkInterface{IP, PortMappings}`.  The port mapper and the IP
allocator each keep a map keyed by host address resp. IP, modelled here as
duplicate-free removal (map deletion removes every trace of the key).
Host addresses and IPs are modelled as naturals.
-/

/-- Embedding of `networkInterface`: the container's IP and the list of
host port mappings recorded by `allocate_port`. -/
structure NetworkInterface where
  ip : Nat
  portMappings : List Nat
deriving DecidableEq, Repr

/-- State of the bridge driver and its two collaborating allocators:
`ifaces` is the `currentInterfaces` map (association list keyed by
container id), `mappedPorts` the port mapper's set of mapped host
addresses, `allocatedIPs` the IP allocator's set of in-use addresses. -/
structure BridgeState where
  ifaces : List (String × NetworkInterface)
  mappedPorts : List Nat
  allocatedIPs : List Nat
deriving DecidableEq, Repr

/-- Embedding of `ifaces.Get`: map lookup, `none` when the container has
no recorded interface (Go returns the nil pointer). -/
def ifacesGet (id : String) (s : BridgeState) : Option NetworkInterface :=
  s.ifaces.lookup id

/-- Job status as reported by a handler: OK, or an error with message
(`job.Error` / `job.Errorf`). -/
inductive JobStatus
  | ok
  | err (msg : String)
deriving DecidableEq, Repr

/-- Embedding of `portmapper.Unmap` applied to each recorded mapping:
deletes the host address from the mapper's map (an Unmap of an absent
address errors, but `Release` only logs that error). -/
def unmapAll (ports : List Nat) (mapped : List Nat) : List Nat :=
  ports.foldl (fun acc p => acc.filter (fun x => x ≠ p)) mapped

/-- Embedding of `Release` (driver.go lines 384-404), handler of
`release_interface`: looks up the container's record; with no record it
returns an error status; otherwise it unmaps every recorded port mapping,
releases the IP and returns OK.  Unmap/release failures are only logged.
The record itself is never removed from `currentInterfaces`. -/
def releaseInterface (id : String) (s : BridgeState) : BridgeState × JobStatus :=
  match ifacesGet id s with
  | none => (s, JobStatus.err ("No network information to release for " ++ id))
  | some ni =>
      ({ ifaces := s.ifaces,
         mappedPorts := unmapAll ni.portMappings s.mappedPorts,
         allocatedIPs := s.allocatedIPs.filter (fun x => x ≠ ni.ip) }, JobStatus.ok)

/-- Closed form of `unmapAll`: unmapping a list of host addresses filters
out exactly those addresses. -/
lemma unmapAll_eq_filter (ports : List Nat) :
    ∀ mapped : List Nat,
      unmapAll ports mapped = mapped.filter (fun x => decide (x ∉ ports)) := by
  induction ports with
  | nil => intro mapped; simp [unmapAll]
  | cons p ps ih =>
      intro mapped
      rw [unmapAll, List.foldl_cons]
      have hgo : List.foldl (fun acc q => acc.filter (fun x => x ≠ q))
          (mapped.filter (fun x => x ≠ p)) ps =
          unmapAll ps (mapped.filter (fun x => x ≠ p)) := rfl
      rw [hgo, ih, List.filter_filter]
      refine List.filter_congr fun x _ => ?_
      by_cases hp : x = p <;> simp [hp]

/-- Unmapping the same addresses twice equals unmapping them once. -/
lemma unmapAll_idem (ports mapped : List Nat) :
    unmapAll ports (unmapAll ports mapped) = unmapAll ports mapped := by
  simp only [unmapAll_eq_filter, List.filter_filter]
  exact List.filter_congr fun x _ => by by_cases hp : x ∈ ports <;> simp [hp]

/-- C4 (counterexample to the claim as stated): after a successful
`release_interface`, the per-container record is still present in the
driver's interface map — `Release` never deletes it. -/
theorem release_interface_does_not_drop_record :
    (releaseInterface "c1"
        { ifaces := [("c1", { ip := 7, portMappings := [8080] })],
          mappedPorts := [8080], allocatedIPs := [7] }).2 = JobStatus.ok ∧
    ifacesGet "c1" (releaseInterface "c1"
        { ifaces := [("c1", { ip := 7, portMappings := [8080] })],
          mappedPorts := [8080], allocatedIPs := [7] }).1 =
      some { ip := 7, portMappings := [8080] } := by decide

/-- C4 (amended): for every container id, `release_interface` unmaps
every port mapping in the container's recorded network interface,
releases its IP to the allocator, and returns OK, but leaves the
per-container record in the driver's interface map; calling
`release_interface` again for the same id is idempotent — a no-op with
success status, the repeated unmap/release failures being only logged. -/
theorem release_interface_releases_and_keeps_record (id : String)
    (s : BridgeState) (ni : NetworkInterface) (h : ifacesGet id s = some ni) :
    (releaseInterface id s).2 = JobStatus.ok ∧
    (∀ p ∈ ni.portMappings, p ∉ (releaseInterface id s).1.mappedPorts) ∧
    ni.ip ∉ (releaseInterface id s).1.allocatedIPs ∧
    (releaseInterface id s).1.ifaces = s.ifaces ∧
    releaseInterface id (releaseInterface id s).1 =
      ((releaseInterface id s).1, JobStatus.ok) := by
  have hrel : releaseInterface id s =
      ({ ifaces := s.ifaces,
         mappedPorts := unmapAll ni.portMappings s.mappedPorts,
         allocatedIPs := s.allocatedIPs.filter (fun x => x ≠ ni.ip) },
        JobStatus.ok) := by
    rw [releaseInterface, h]
  refine ⟨by rw [hrel], ?_, ?_, by rw [hrel], ?_⟩
  · intro p hp
    rw [hrel, unmapAll_eq_filter]
    simp [List.mem_filter, hp]
  · rw [hrel]
    simp [List.mem_filter]
  · have hget2 : ifacesGet id (releaseInterface id s).1 = some ni := by
      rw [hrel]; exact h
    rw [releaseInterface, hget2, hrel]
    simp [unmapAll_idem, List.filter_filter]

/-- Witness for `release_interface_releases_and_keeps_record` on a
concrete one-container state. -/
theorem release_interface_releases_and_keeps_record_witness :
    (releaseInterface "web"
        { ifaces := [("web", { ip := 2, portMappings := [80, 443] })],
          mappedPorts := [80, 443, 9], allocatedIPs := [2, 3] }).2 = JobStatus.ok ∧
    (∀ p ∈ ({ ip := 2, portMappings := [80, 443]} : NetworkInterface).portMappings,
      p ∉ (releaseInterface "web"
        { ifaces := [("web", { ip := 2, portMappings := [80, 443] })],
          mappedPorts := [80, 443, 9], allocatedIPs := [2, 3] }).1.mappedPorts) ∧
    ({ ip := 2, portMappings := [80, 443]} : NetworkInterface).ip ∉
      (releaseInterface "web"
        { ifaces := [("web", { ip := 2, portMappings := [80, 443] })],
          mappedPorts := [80, 443, 9], allocatedIPs := [2, 3] }).1.allocatedIPs ∧
    (releaseInterface "web"
        { ifaces := [("web", { ip := 2, portMappings := [80, 443] })],
          mappedPorts := [80, 443, 9], allocatedIPs := [2, 3] }).1.ifaces =
      BridgeState.ifaces
        { ifaces := [("web", { ip := 2, portMappings := [80, 443] })],
          mappedPorts := [80, 443, 9], allocatedIPs := [2, 3] } ∧
    releaseInterface "web"
        (releaseInterface "web"
          { ifaces := [("web", { ip := 2, portMappings := [80, 443] })],
            mappedPorts := [80, 443, 9], allocatedIPs := [2, 3] }).1 =
      ((releaseInterface "web"
          { ifaces := [("web", { ip := 2, portMappings := [80, 443] })],
            mappedPorts := [80, 443, 9], allocatedIPs := [2, 3] }).1, JobStatus.ok) :=
  release_interface_releases_and_keeps_record "web" _ _ (by decide)

/-! ## AllocatePort (driver.go lines 407-485), handler of `allocate_port` -/

/-- Upper bound of the Map retry loop (driver.go line 24). -/
def MaxAllocatedPortAttempts : Nat := 10

/-- Outcome of the address-building prefix of `AllocatePort` (lines
407-433): the handler reads `currentInterfaces.Get(id)` without a nil
check and immediately dereferences it (`network.IP`) when the protocol is
tcp or udp; an unsupported protocol returns an error status first. -/
inductive AllocPortPre
  | nilDereference
  | unsupportedProto (proto : String)
  | containerAddr (ip : Nat) (port : Int)
deriving DecidableEq, Repr

/-- Embedding of the prefix of `AllocatePort` up to building the container
address.  `none` from the interface map is Go's nil pointer; in the tcp
and udp cases the code reads `network.IP` through it. -/
def allocatePortPre (id proto : String) (containerPort : Int)
    (s : BridgeState) : AllocPortPre :=
  match ifacesGet id s, proto with
  | none, "tcp" => AllocPortPre.nilDereference
  | none, "udp" => AllocPortPre.nilDereference
  | some ni, "tcp" => AllocPortPre.containerAddr ni.ip containerPort
  | some ni, "udp" => AllocPortPre.containerAddr ni.ip containerPort
  | _, other => AllocPortPre.unsupportedProto other

/-- Result of one `portmapper.Map` call, abstracted as an oracle indexed
by the attempt number. -/
inductive MapOutcome
  | ok (host : Nat)
  | portAlreadyAllocated
  | otherError
deriving DecidableEq, Repr

/-- How the retry loop of `AllocatePort` ends. -/
inductive LoopExit
  | success (host : Nat)
  | failPortAlloc
  | failOther
deriving DecidableEq, Repr

/-- Embedding of the `for i := 0; i < MaxAllocatedPortAttempts; i++` retry
loop of `AllocatePort` (driver.go lines 442-463), starting at attempt `i`.
Returns the number of `portmapper.Map` calls made and how the loop exits:
success breaks; a PortAlreadyAllocated error breaks when an explicit
(non-zero) host port was requested and otherwise moves to the next
attempt; any other error breaks.  When all attempts are exhausted the
last PortAlreadyAllocated error is returned. -/
def allocatePortLoop (mapAttempt : Nat → MapOutcome) (hostPort : Int)
    (i : Nat) : Nat × LoopExit :=
  if _h : i < MaxAllocatedPortAttempts then
    match mapAttempt i with
    | MapOutcome.ok a => (1, LoopExit.success a)
    | MapOutcome.portAlreadyAllocated =>
        if hostPort ≠ 0 then (1, LoopExit.failPortAlloc)
        else
          let r := allocatePortLoop mapAttempt hostPort (i + 1)
          (r.1 + 1, r.2)
    | MapOutcome.otherError => (1, LoopExit.failOther)
  else (0, LoopExit.failPortAlloc)
termination_by MaxAllocatedPortAttempts - i

/-- When every Map attempt reports PortAlreadyAllocated and the host port
is auto-chosen (0), the loop starting at `i` makes the remaining
`MaxAllocatedPortAttempts - i` calls and fails. -/
lemma allocatePortLoop_allFail (mapAttempt : Nat → MapOutcome)
    (hm : ∀ j, j < MaxAllocatedPortAttempts →
      mapAttempt j = MapOutcome.portAlreadyAllocated) :
    ∀ d i, MaxAllocatedPortAttempts - i = d →
      allocatePortLoop mapAttempt 0 i = (d, LoopExit.failPortAlloc) := by
  intro d
  induction d with
  | zero =>
      intro i hi
      have : ¬ i < MaxAllocatedPortAttempts := by omega
      rw [allocatePortLoop, dif_neg this]
  | succ d ih =>
      intro i hi
      have hlt : i < MaxAllocatedPortAttempts := by omega
      rw [allocatePortLoop, dif_pos hlt, hm i hlt]
      simp only [ne_eq, not_true_eq_false, if_false]
      rw [ih (i + 1) (by omega)]

/-- C5: in `allocate_port`, with an auto-chosen host port (0) the Map call
is attempted up to `MaxAllocatedPortAttempts = 10` times on
PortAlreadyAllocated errors, failing with that error after the tenth
attempt; with an explicit non-zero host port, a first PortAlreadyAllocated
error is returned after a single Map call, with no retry. -/
theorem allocate_port_retry_policy (mapAttempt : Nat → MapOutcome)
    (hostPort : Int) :
    ((∀ j, j < MaxAllocatedPortAttempts →
        mapAttempt j = MapOutcome.portAlreadyAllocated) →
      allocatePortLoop mapAttempt 0 0 =
        (MaxAllocatedPortAttempts, LoopExit.failPortAlloc)) ∧
    (mapAttempt 0 = MapOutcome.portAlreadyAllocated → hostPort ≠ 0 →
      allocatePortLoop mapAttempt hostPort 0 = (1, LoopExit.failPortAlloc)) := by
  constructor
  · intro hm
    exact allocatePortLoop_allFail mapAttempt hm MaxAllocatedPortAttempts 0 rfl
  · intro h0 hp
    rw [allocatePortLoop,
      dif_pos (show 0 < MaxAllocatedPortAttempts by decide), h0]
    simp [hp]

/-- Witness for `allocate_port_retry_policy`: an always-allocated mapper
is tried 10 times for port 0 and only once for explicit port 5. -/
theorem allocate_port_retry_policy_witness :
    allocatePortLoop (fun _ => MapOutcome.portAlreadyAllocated) 0 0 =
      (MaxAllocatedPortAttempts, LoopExit.failPortAlloc) ∧
    allocatePortLoop (fun _ => MapOutcome.portAlreadyAllocated) 5 0 =
      (1, LoopExit.failPortAlloc) :=
  ⟨(allocate_port_retry_policy (fun _ => MapOutcome.portAlreadyAllocated) 0).1
      (fun _ _ => rfl),
    (allocate_port_retry_policy (fun _ => MapOutcome.portAlreadyAllocated) 5).2
      rfl (by decide)⟩

/-- C10: calling `allocate_port` for a container id with no recorded
network interface dereferences the nil interface record while building the
container address (for both tcp and udp), instead of returning an error
status. -/
theorem allocate_port_nil_dereference (id proto : String) (cp : Int)
    (s : BridgeState) (h : ifacesGet id s = none)
    (hp : proto = "tcp" ∨ proto = "udp") :
    allocatePortPre id proto cp s = AllocPortPre.nilDereference := by
  rcases hp with rfl | rfl <;> simp [allocatePortPre, h]

/-- Witness for `allocate_port_nil_dereference` on an empty driver state. -/
theorem allocate_port_nil_dereference_witness :
    allocatePortPre "c9" "tcp" 80
        { ifaces := [], mappedPorts := [], allocatedIPs := [] } =
      AllocPortPre.nilDereference :=
  allocate_port_nil_dereference "c9" "tcp" 80 _ rfl (Or.inl rfl)

/-! ## setupIPTables and init_networkdriver idempotence (driver.go)

An iptables rule is modelled as its argument vector; a ruleset as the list
of installed rules in order.  `iptables -I` inserts at the head of the
chain, `iptables -D` deletes the first matching rule, `iptables -C`
(`iptables.Exists`) is membership.
-/

/-- An iptables rule, as the argument vector passed to `iptables.Raw`. -/
abbrev IPTRule := List String

/-- The MASQUERADE nat rule of `setupIPTables` (driver.go line 203). -/
def natPostroutingRule (bIface addr : String) : IPTRule :=
  ["POSTROUTING", "-t", "nat", "-s", addr, "!", "-o", bIface, "-j", "MASQUERADE"]

/-- The inter-container ACCEPT rule (driver.go lines 214-215). -/
def acceptIccRule (bIface : String) : IPTRule :=
  ["FORWARD", "-i", bIface, "-o", bIface, "-j", "ACCEPT"]

/-- The inter-container DROP rule (driver.go lines 214-216). -/
def dropIccRule (bIface : String) : IPTRule :=
  ["FORWARD", "-i", bIface, "-o", bIface, "-j", "DROP"]

/-- The outgoing-packets ACCEPT rule (driver.go line 245). -/
def outgoingRule (bIface : String) : IPTRule :=
  ["FORWARD", "-i", bIface, "!", "-o", bIface, "-j", "ACCEPT"]

/-- The established-connections ACCEPT rule (driver.go line 256). -/
def existingConnRule (bIface : String) : IPTRule :=
  ["FORWARD", "-o", bIface, "-m", "conntrack", "--ctstate",
   "RELATED,ESTABLISHED", "-j", "ACCEPT"]

/-- Guarded insertion used throughout `setupIPTables`: insert the rule at
the head of the chain only if `iptables.Exists` does not already find
it. -/
def insertIfMissing (r : IPTRule) (rs : List IPTRule) : List IPTRule :=
  if r ∈ rs then rs else r :: rs

/-- Embedding of `setupIPTables(addr, icc)` (driver.go lines 200-266) as a
function on the ruleset, applying its steps in source order: (1) insert
the MASQUERADE rule if missing; (2) delete the opposite-polarity
inter-container rule, then insert the configured-polarity one if missing;
(3) insert the outgoing rule if missing; (4) insert the
established-connections rule if missing. -/
def setupIPTables (bIface addr : String) (icc : Bool) (rs : List IPTRule) :
    List IPTRule :=
  insertIfMissing (existingConnRule bIface)
    (insertIfMissing (outgoingRule bIface)
      (if icc then
        insertIfMissing (acceptIccRule bIface)
          ((insertIfMissing (natPostroutingRule bIface addr) rs).erase
            (dropIccRule bIface))
      else
        insertIfMissing (dropIccRule bIface)
          ((insertIfMissing (natPostroutingRule bIface addr) rs).erase
            (acceptIccRule bIface))))

/-- State touched by `InitDriver` beyond the filter/nat rules: whether the
DOCKER chain exists. -/
structure IPTState where
  rules : List IPTRule
  dockerChain : Bool
deriving DecidableEq, Repr

/-- Embedding of the iptables-visible part of `InitDriver` (driver.go
lines 148-179) for an existing bridge: run `setupIPTables` when iptables
support is enabled, then always remove any pre-existing DOCKER chain, then
create it fresh when iptables support is enabled. -/
def initNetworkdriverIPT (bIface addr : String) (enableIPT icc : Bool)
    (s : IPTState) : IPTState :=
  let s1 := if enableIPT then
      { s with rules := setupIPTables bIface addr icc s.rules } else s
  let s2 := { s1 with dockerChain := false }
  if enableIPT then { s2 with dockerChain := true } else s2

/-- A rule is a member of the ruleset after its guarded insertion. -/
lemma mem_insertIfMissing (r : IPTRule) (rs : List IPTRule) :
    r ∈ insertIfMissing r rs := by
  rw [insertIfMissing]; split
  · assumption
  · exact List.mem_cons_self r rs

/-- Guarded insertion preserves membership of any rule. -/
lemma mem_insertIfMissing_of_mem (q r : IPTRule) (rs : List IPTRule)
    (h : q ∈ rs) : q ∈ insertIfMissing r rs := by
  rw [insertIfMissing]; split
  · exact h
  · exact List.mem_cons_of_mem r h

/-- Guarded insertion of a rule already present is the identity. -/
lemma insertIfMissing_eq_of_mem {r : IPTRule} {rs : List IPTRule}
    (h : r ∈ rs) : insertIfMissing r rs = rs := if_pos h

/-- Guarded insertion does not change the multiplicity of other rules. -/
lemma count_insertIfMissing_of_ne {q r : IPTRule} (rs : List IPTRule)
    (h : q ≠ r) : (insertIfMissing r rs).count q = rs.count q := by
  rw [insertIfMissing]; split
  · rfl
  · simp [List.count_cons, h]

/-- One guarded-insert/erase pass leaves a ruleset fixed when applied a
second time, provided the erased rule occurred at most once initially and
differs from each inserted rule. -/
lemma insert_erase_pass_idem (N I X O E : IPTRule) (rs : List IPTRule)
    (hNX : N ≠ X) (hIX : I ≠ X) (hOX : O ≠ X) (hEX : E ≠ X)
    (hc : rs.count X ≤ 1) :
    insertIfMissing E (insertIfMissing O (insertIfMissing I
      ((insertIfMissing N
        (insertIfMissing E (insertIfMissing O (insertIfMissing I
          ((insertIfMissing N rs).erase X))))).erase X))) =
    insertIfMissing E (insertIfMissing O (insertIfMissing I
      ((insertIfMissing N rs).erase X))) := by
  set t := insertIfMissing E (insertIfMissing O (insertIfMissing I
    ((insertIfMissing N rs).erase X))) with ht
  have hXt : X ∉ t := by
    have h1 : (insertIfMissing N rs).count X = rs.count X :=
      count_insertIfMissing_of_ne rs (Ne.symm hNX)
    have h2 : ((insertIfMissing N rs).erase X).count X = 0 := by
      rw [List.count_erase_self, h1]; omega
    have h3 : t.count X = 0 := by
      rw [ht, count_insertIfMissing_of_ne _ (Ne.symm hEX),
        count_insertIfMissing_of_ne _ (Ne.symm hOX),
        count_insertIfMissing_of_ne _ (Ne.symm hIX), h2]
    simpa [List.count_eq_zero] using h3
  have hNt : N ∈ t := by
    have h1 : N ∈ (insertIfMissing N rs).erase X :=
      (List.mem_erase_of_ne hNX).mpr (mem_insertIfMissing N rs)
    exact mem_insertIfMissing_of_mem _ _ _
      (mem_insertIfMissing_of_mem _ _ _ (mem_insertIfMissing_of_mem _ _ _ h1))
  have hIt : I ∈ t :=
    mem_insertIfMissing_of_mem _ _ _
      (mem_insertIfMissing_of_mem _ _ _ (mem_insertIfMissing _ _))
  have hOt : O ∈ t :=
    mem_insertIfMissing_of_mem _ _ _ (mem_insertIfMissing _ _)
  have hEt : E ∈ t := mem_insertIfMissing _ _
  rw [insertIfMissing_eq_of_mem hNt, List.erase_of_not_mem hXt,
    insertIfMissing_eq_of_mem hIt, insertIfMissing_eq_of_mem hOt,
    insertIfMissing_eq_of_mem hEt]

/-- Distinct iptables argument vectors of different lengths. -/
lemma iptRule_ne_of_length {l1 l2 : IPTRule}
    (h : l1.length ≠ l2.length) : l1 ≠ l2 :=
  fun he => h (he ▸ rfl)

/-- The two polarities of the inter-container rule differ. -/
lemma acceptIccRule_ne_dropIccRule (bIface : String) :
    acceptIccRule bIface ≠ dropIccRule bIface := by
  intro h
  have h6 := congrArg (fun l => l.getLast?) h
  simp [acceptIccRule, dropIccRule] at h6

/-- Second run of `setupIPTables` with the same arguments is the
identity, provided the opposite-polarity inter-container rule occurred at
most once in the initial ruleset. -/
lemma setupIPTables_idem (bIface addr : String) (icc : Bool)
    (rs : List IPTRule)
    (hc : rs.count (if icc then dropIccRule bIface else acceptIccRule bIface)
      ≤ 1) :
    setupIPTables bIface addr icc (setupIPTables bIface addr icc rs) =
      setupIPTables bIface addr icc rs := by
  cases icc with
  | true =>
      exact insert_erase_pass_idem _ _ _ _ _ rs
        (iptRule_ne_of_length (by simp [natPostroutingRule, dropIccRule]))
        (acceptIccRule_ne_dropIccRule bIface)
        (iptRule_ne_of_length (by simp [outgoingRule, dropIccRule]))
        (iptRule_ne_of_length (by simp [existingConnRule, dropIccRule])) hc
  | false =>
      exact insert_erase_pass_idem _ _ _ _ _ rs
        (iptRule_ne_of_length (by simp [natPostroutingRule, acceptIccRule]))
        (Ne.symm (acceptIccRule_ne_dropIccRule bIface))
        (iptRule_ne_of_length (by simp [outgoingRule, acceptIccRule]))
        (iptRule_ne_of_length (by simp [existingConnRule, acceptIccRule])) hc

/-- C7 (counterexample to the claim as stated): from a pre-existing
ruleset holding two stale copies of the DROP inter-container rule, running
`init_networkdriver` (icc enabled) twice does not give the same ruleset as
running it once — each run deletes only the first matching copy. -/
theorem init_networkdriver_not_idempotent_on_duplicates :
    initNetworkdriverIPT "docker0" "172.17.42.1/16" true true
        (initNetworkdriverIPT "docker0" "172.17.42.1/16" true true
          { rules := [dropIccRule "docker0", dropIccRule "docker0"],
            dockerChain := false }) ≠
      initNetworkdriverIPT "docker0" "172.17.42.1/16" true true
        { rules := [dropIccRule "docker0", dropIccRule "docker0"],
          dockerChain := false } := by
  decide

/-- C7 (amended): running `init_networkdriver` twice with the same
configuration produces the same iptables ruleset as running it once,
provided the initial ruleset holds at most one copy of the
opposite-polarity inter-container rule (each MASQUERADE/FORWARD rule is
inserted only when absent, and the inter-container rule deletes the first
matching opposite-polarity rule before inserting its own, so a duplicated
stale opposite rule survives the first run). -/
theorem init_networkdriver_idempotent (bIface addr : String)
    (enableIPT icc : Bool) (s : IPTState)
    (hc : s.rules.count
      (if icc then dropIccRule bIface else acceptIccRule bIface) ≤ 1) :
    initNetworkdriverIPT bIface addr enableIPT icc
        (initNetworkdriverIPT bIface addr enableIPT icc s) =
      initNetworkdriverIPT bIface addr enableIPT icc s := by
  cases enableIPT with
  | false => simp [initNetworkdriverIPT]
  | true => simp [initNetworkdriverIPT, setupIPTables_idem bIface addr icc s.rules hc]

/-- Witness for `init_networkdriver_idempotent` on a concrete ruleset
holding one stale DROP rule and an unrelated rule. -/
theorem init_networkdriver_idempotent_witness :
    initNetworkdriverIPT "docker0" "172.17.42.1/16" true true
        (initNetworkdriverIPT "docker0" "172.17.42.1/16" true true
          { rules := [dropIccRule "docker0", ["INPUT", "-j", "ACCEPT"]],
            dockerChain := false }) =
      initNetworkdriverIPT "docker0" "172.17.42.1/16" true true
        { rules := [dropIccRule "docker0", ["INPUT", "-j", "ACCEPT"]],
          dockerChain := false } :=
  init_networkdriver_idempotent "docker0" "172.17.42.1/16" true true
    { rules := [dropIccRule "docker0", ["INPUT", "-j", "ACCEPT"]],
      dockerChain := false } (by decide)

/-! ## Bridge creation (driver.go, `createBridge`) -/

/-- Embedding of the hard-coded candidate CIDR list `addrs`
(driver.go lines 52-70), in source order. -/
def addrs : List String :=
  ["172.17.42.1/16",
   "10.0.42.1/16",
   "10.1.42.1/16",
   "10.42.42.1/16",
   "172.16.42.1/24",
   "172.16.43.1/24",
   "172.16.44.1/24",
   "10.0.42.1/24",
   "10.0.43.1/24",
   "192.168.42.1/24",
   "192.168.43.1/24",
   "192.168.44.1/24"]

/-- Outcome of the address-selection part of `createBridge` (driver.go
lines 282-309). -/
inductive CreateBridgeOutcome
  | ok (ifaceAddr : String)
  | errParse
  | errNoFreeRange
deriving DecidableEq, Repr

/-- Embedding of the address selection in `createBridge`: with a
configured bridge IP, that CIDR is used after a parse check; otherwise the
loop walks `addrs` in order and keeps the first candidate whose network
neither overlaps a nameserver of the host resolv.conf (`nsOverlap`) nor
collides with an existing host route (`routeOverlap`), both abstracted as
oracles on the candidate string; an empty selection is the
could-not-find-a-free-IP-range error.  (Every constant in `addrs` parses,
so the loop's own ParseCIDR error path is unreachable.) -/
def createBridgeAddr (parseOk nsOverlap routeOverlap : String → Bool)
    (bridgeIP : String) : CreateBridgeOutcome :=
  if bridgeIP.length ≠ 0 then
    if parseOk bridgeIP then CreateBridgeOutcome.ok bridgeIP
    else CreateBridgeOutcome.errParse
  else
    match addrs.find? (fun a => !nsOverlap a && !routeOverlap a) with
    | some a => CreateBridgeOutcome.ok a
    | none => CreateBridgeOutcome.errNoFreeRange

/-- A successful `List.find?` returns an element of the list satisfying
the predicate such that every earlier element falsifies it. -/
lemma find?_first_spec {α : Type} (p : α → Bool) (l : List α) (a : α)
    (h : l.find? p = some a) :
    p a = true ∧ ∃ l1 l2, l = l1 ++ a :: l2 ∧ ∀ b ∈ l1, p b = false := by
  induction l with
  | nil => simp [List.find?] at h
  | cons x xs ih =>
      by_cases hx : p x
      · rw [List.find?_cons_of_pos _ hx] at h
        obtain rfl := Option.some.inj h
        exact ⟨hx, [], xs, rfl, by simp⟩
      · rw [List.find?_cons_of_neg _ (by simpa using hx)] at h
        obtain ⟨hp, l1, l2, rfl, hl1⟩ := ih h
        refine ⟨hp, x :: l1, l2, rfl, ?_⟩
        intro b hb
        rcases List.mem_cons.mp hb with rfl | hb
        · simpa using hx
        · exact hl1 b hb

/-- C6: with no configured bridge IP, `createBridge` selects from the
hard-coded candidate list — headed by 172.17.42.1/16 — the first CIDR that
neither overlaps a resolv.conf nameserver nor collides with a host route,
and fails with the no-free-range error when every candidate overlaps. -/
theorem create_bridge_candidate_selection
    (parseOk nsOverlap routeOverlap : String → Bool) :
    addrs.headI = "172.17.42.1/16" ∧
    ((∀ a ∈ addrs, nsOverlap a = true ∨ routeOverlap a = true) →
      createBridgeAddr parseOk nsOverlap routeOverlap "" =
        CreateBridgeOutcome.errNoFreeRange) ∧
    (∀ a, createBridgeAddr parseOk nsOverlap routeOverlap "" =
        CreateBridgeOutcome.ok a →
      nsOverlap a = false ∧ routeOverlap a = false ∧
      ∃ l1 l2, addrs = l1 ++ a :: l2 ∧
        ∀ b ∈ l1, nsOverlap b = true ∨ routeOverlap b = true) := by
  refine ⟨rfl, ?_, ?_⟩
  · intro hall
    rw [createBridgeAddr]
    have hnone : addrs.find? (fun a => !nsOverlap a && !routeOverlap a) = none := by
      rw [List.find?_eq_none]
      intro a ha
      rcases hall a ha with h1 | h1 <;> simp [h1]
    simp [hnone]
  · intro a ha
    rw [createBridgeAddr] at ha
    simp only [String.length, List.length_nil, ne_eq, not_true_eq_false,
      if_false] at ha
    rcases hfind : addrs.find? (fun c => !nsOverlap c && !routeOverlap c) with
      _ | c
    · rw [hfind] at ha; exact absurd ha (by simp)
    · rw [hfind] at ha
      obtain rfl : c = a := by simpa using ha
      obtain ⟨hp, l1, l2, heq, hl1⟩ := find?_first_spec _ _ _ hfind
      simp only [Bool.and_eq_true, Bool.not_eq_true'] at hp
      refine ⟨hp.1, hp.2, l1, l2, heq, ?_⟩
      intro b hb
      have := hl1 b hb
      rcases hns : nsOverlap b with _ | _ <;>
        rcases hrt : routeOverlap b with _ | _ <;>
          simp_all

/-- Witness for `create_bridge_candidate_selection` with oracles under
which the default range overlaps a nameserver and the second candidate is
selected. -/
theorem create_bridge_candidate_selection_witness :
    addrs.headI = "172.17.42.1/16" ∧
    ((∀ a ∈ addrs, (fun c => c == "172.17.42.1/16") a = true ∨
        (fun _ => false) a = true) →
      createBridgeAddr (fun _ => true) (fun c => c == "172.17.42.1/16")
          (fun _ => false) "" = CreateBridgeOutcome.errNoFreeRange) ∧
    (∀ a, createBridgeAddr (fun _ => true) (fun c => c == "172.17.42.1/16")
        (fun _ => false) "" = CreateBridgeOutcome.ok a →
      (fun c => c == "172.17.42.1/16") a = false ∧
        (fun _ => false) a = false ∧
      ∃ l1 l2, addrs = l1 ++ a :: l2 ∧
        ∀ b ∈ l1, (fun c => c == "172.17.42.1/16") b = true ∨
          (fun _ => false) b = true) :=
  create_bridge_candidate_selection (fun _ => true)
    (fun c => c == "172.17.42.1/16") (fun _ => false)

/-! ## Boot-time restore of containers (daemon/daemon.go, `register`)

During `restore`, each container loaded from disk is passed to
`daemon.register`.  The part of `register` relevant to persisted-Running
containers is lines 221-262: the old process is killed, the state is set
to Stopped, and the exec driver is consulted afterwards.
-/

/-- Slice of a container's persisted `State` touched by `register`:
whether it is recorded as running, the recorded init-process pid, and the
last exit code. -/
structure ContainerState where
  running : Bool
  pid : Int
  exitCode : Int
deriving DecidableEq, Repr

/-- Embedding of `State.SetStopped(exitCode)`: clears the running flag and
the pid and records the exit code. -/
def setStopped (code : Int) (s : ContainerState) : ContainerState :=
  { s with running := false, pid := 0, exitCode := code }

/-- External effects performed by the restore branch of `register`, in
order: killing the old process (lxc kill -9 or exec-driver `Terminate`),
unmounting the rootfs, and persisting a state snapshot with `ToDisk`. -/
inductive RegisterEffect
  | terminateOldProcess (pid : Int)
  | unmount
  | toDisk (s : ContainerState)
deriving DecidableEq, Repr

/-- Embedding of the state-reconciliation part of `Daemon.register`
(daemon.go lines 221-262) as run during restore.  `infoRunning` is what
`execDriver.Info(id).IsRunning()` reports after the termination attempt.
When the persisted state is Running, the daemon: records the old pid, sets
the state to Stopped with exit code 0, kills the old process, unmounts,
persists that state; then, if the exec driver reports the process dead,
re-marks the state Stopped with exit code -127 and persists again.  When
the persisted state is not Running, nothing happens. -/
def registerRestore (s : ContainerState) (infoRunning : Bool) :
    ContainerState × List RegisterEffect :=
  if s.running then
    let existingPid := s.pid
    let s1 := setStopped 0 s
    let effs := [RegisterEffect.terminateOldProcess existingPid,
                 RegisterEffect.unmount, RegisterEffect.toDisk s1]
    if !infoRunning then
      let s2 := setStopped (-127) s1
      (s2, effs ++ [RegisterEffect.toDisk s2])
    else
      (s1, effs)
  else
    (s, [])

/-- C1 (counterexample to the claim as stated): a container persisted as
Running whose process is still alive (`Info` reports running) is not
adopted in the Running state — `register` has already terminated the old
process and marked the container Stopped with exit code 0. -/
theorem register_does_not_adopt_live_container :
    (registerRestore { running := true, pid := 42, exitCode := 0 } true).1 =
        { running := false, pid := 0, exitCode := 0 } ∧
    RegisterEffect.terminateOldProcess 42 ∈
      (registerRestore { running := true, pid := 42, exitCode := 0 } true).2 := by
  decide

/-- C1 (amended): during boot restore, every container persisted as
Running is first terminated (kill of the old pid), unmounted, marked
Stopped with exit code 0 and persisted; then the exec driver is consulted:
if the process is no longer alive the container is re-marked Stopped with
exit code -127 and that state is persisted as the last disk write; in no
case is the container adopted in the Running state.  Containers persisted
as not Running are left untouched. -/
theorem register_restore_stops_running_containers (s : ContainerState)
    (infoRunning : Bool) (h : s.running = true) :
    (registerRestore s infoRunning).1.running = false ∧
    RegisterEffect.terminateOldProcess s.pid ∈ (registerRestore s infoRunning).2 ∧
    (infoRunning = false →
      (registerRestore s infoRunning).1 = setStopped (-127) s ∧
      (registerRestore s infoRunning).2.getLast? =
        some (RegisterEffect.toDisk (setStopped (-127) s))) ∧
    (infoRunning = true →
      (registerRestore s infoRunning).1 = setStopped 0 s ∧
      (registerRestore s infoRunning).2.getLast? =
        some (RegisterEffect.toDisk (setStopped 0 s))) := by
  cases infoRunning <;>
    simp [registerRestore, h, setStopped, List.getLast?]

/-- Witness for `register_restore_stops_running_containers` on a concrete
Running container whose process turns out to be dead. -/
theorem register_restore_stops_running_containers_witness :
    (registerRestore { running := true, pid := 7, exitCode := 3 } false).1.running = false ∧
    RegisterEffect.terminateOldProcess
        (ContainerState.pid { running := true, pid := 7, exitCode := 3 }) ∈
      (registerRestore { running := true, pid := 7, exitCode := 3 } false).2 ∧
    (false = false →
      (registerRestore { running := true, pid := 7, exitCode := 3 } false).1 =
        setStopped (-127) { running := true, pid := 7, exitCode := 3 } ∧
      (registerRestore { running := true, pid := 7, exitCode := 3 } false).2.getLast? =
        some (RegisterEffect.toDisk
          (setStopped (-127) { running := true, pid := 7, exitCode := 3 }))) ∧
    (false = true →
      (registerRestore { running := true, pid := 7, exitCode := 3 } false).1 =
        setStopped 0 { running := true, pid := 7, exitCode := 3 } ∧
      (registerRestore { running := true, pid := 7, exitCode := 3 } false).2.getLast? =
        some (RegisterEffect.toDisk
          (setStopped 0 { running := true, pid := 7, exitCode := 3 }))) :=
  register_restore_stops_running_containers _ false rfl

/-! ## Container name generation (daemon/daemon.go, `generateNewName`)

The name graph (`containerGraph`, pkg/graphdb) is not part of the sources
at hand; its `Set` operation is modelled from the spec.  Random name
generation (`namesgenerator.GetRandomName(i)`) is abstracted as an oracle
indexed by the retry counter.
-/

/-- Modelled from the spec: the name graph's `set(path, id)` fails with
NonUniqueName exactly when the path already exists, and otherwise records
the path (pkg/graphdb is outside the available sources).  The graph is
modelled as the list of taken paths; `none` is the NonUniqueName error. -/
def graphSet (name : String) (g : List String) : Option (List String) :=
  if name ∈ g then none else some (name :: g)

/-- Modelled from the spec: `utils.TruncateID` keeps the first 12
characters of the container id (the source of utils is not at hand; the
spec fixes the truncated id at 12 characters). -/
def truncateID (id : String) : String :=
  String.mk (id.data.take 12)

/-- Prefixing with "/" as done by `generateNewName`: the name is prefixed
with a slash unless it already starts with one. -/
def slashify (name : String) : String :=
  if name.startsWith "/" then name else "/" ++ name

/-- Embedding of the loop of `Daemon.generateNewName` (daemon.go lines
472-494) from attempt `i`: up to 6 attempts draw `names i`, slash-prefix
it and try to register it in the name graph, continuing on a
NonUniqueName collision; after 6 collisions the fallback
`"/" + TruncateID(id)` is registered, a collision there being a terminal
error (modelled as `none`).  Returns the name and the updated graph. -/
def generateNewNameGo (names : Nat → String) (id : String)
    (g : List String) (i : Nat) : Option String × List String :=
  if _h : i < 6 then
    let name := slashify (names i)
    match graphSet name g with
    | none => generateNewNameGo names id g (i + 1)
    | some g2 => (some name, g2)
  else
    let fallback := "/" ++ truncateID id
    match graphSet fallback g with
    | none => (none, g)
    | some g2 => (some fallback, g2)
termination_by 6 - i

/-- Embedding of `Daemon.generateNewName`, which starts the loop at
attempt 0. -/
def generateNewName (names : Nat → String) (id : String)
    (g : List String) : Option String × List String :=
  generateNewNameGo names id g 0

/-- When every attempt from `i` on collides, the loop reaches the
fallback name. -/
lemma generateNewNameGo_allCollide (names : Nat → String) (id : String)
    (g : List String) (hfb : ("/" ++ truncateID id) ∉ g) :
    ∀ d i, 6 - i = d → (∀ k, i ≤ k → k < 6 → slashify (names k) ∈ g) →
      generateNewNameGo names id g i =
        (some ("/" ++ truncateID id), ("/" ++ truncateID id) :: g) := by
  intro d
  induction d with
  | zero =>
      intro i hi _
      have h6 : ¬ i < 6 := by omega
      rw [generateNewNameGo, dif_neg h6]
      simp only [graphSet, if_neg hfb]
  | succ d ih =>
      intro i hi hcoll
      have hlt : i < 6 := by omega
      have hmem : slashify (names i) ∈ g := hcoll i (le_refl i) hlt
      rw [generateNewNameGo, dif_pos hlt]
      simp only [graphSet, if_pos hmem]
      exact ih (i + 1) (by omega) fun k hk1 hk2 => hcoll k (by omega) hk2

/-- When the first non-colliding attempt is attempt `j`, the loop returns
its slash-prefixed name and registers it. -/
lemma generateNewNameGo_firstFree (names : Nat → String) (id : String)
    (g : List String) :
    ∀ d i j, j - i = d → i ≤ j → j < 6 →
      (∀ k, i ≤ k → k < j → slashify (names k) ∈ g) →
      slashify (names j) ∉ g →
      generateNewNameGo names id g i =
        (some (slashify (names j)), slashify (names j) :: g) := by
  intro d
  induction d with
  | zero =>
      intro i j hd hij hj6 _ hfree
      obtain rfl : i = j := by omega
      rw [generateNewNameGo, dif_pos hj6]
      simp only [graphSet, if_neg hfree]
  | succ d ih =>
      intro i j hd hij hj6 hcoll hfree
      have hlt : i < 6 := by omega
      have hmem : slashify (names i) ∈ g := hcoll i (le_refl i) (by omega)
      rw [generateNewNameGo, dif_pos hlt]
      simp only [graphSet, if_pos hmem]
      exact ih (i + 1) j (by omega) (by omega) hj6
        (fun k hk1 hk2 => hcoll k (by omega) hk2) hfree

/-- C8: with no user-supplied name, name generation draws random names for
up to 6 attempts and registers the first one the name graph accepts
(slash-prefixed); if all 6 attempts collide it falls back to "/" plus the
12-character truncated container id. -/
theorem generate_new_name_attempts (names : Nat → String) (id : String)
    (g : List String) (j : Nat) :
    (j < 6 → (∀ k, k < j → slashify (names k) ∈ g) →
      slashify (names j) ∉ g →
      generateNewName names id g =
        (some (slashify (names j)), slashify (names j) :: g)) ∧
    ((∀ k, k < 6 → slashify (names k) ∈ g) → ("/" ++ truncateID id) ∉ g →
      generateNewName names id g =
        (some ("/" ++ truncateID id), ("/" ++ truncateID id) :: g)) ∧
    (12 ≤ id.length → (truncateID id).length = 12) := by
  refine ⟨fun hj6 hcoll hfree => ?_, fun hcoll hfb => ?_, fun hlen => ?_⟩
  · exact generateNewNameGo_firstFree names id g j 0 j rfl (by omega) hj6
      (fun k _ hk => hcoll k hk) hfree
  · exact generateNewNameGo_allCollide names id g hfb 6 0 rfl
      (fun k _ hk => hcoll k hk)
  · have : id.length = id.data.length := rfl
    simp only [truncateID, String.length, List.length_take]
    omega

/-- Witness for `generate_new_name_attempts`: the first two draws collide
with the existing names, the third is accepted. -/
theorem generate_new_name_attempts_witness :
    ((2 : Nat) < 6 →
      (∀ k, k < 2 →
        slashify (["boring_pike", "angry_fermat", "happy_tesla"].getD k "") ∈
          ["/boring_pike", "/angry_fermat"]) →
      slashify (["boring_pike", "angry_fermat", "happy_tesla"].getD 2 "") ∉
        ["/boring_pike", "/angry_fermat"] →
      generateNewName (fun k => ["boring_pike", "angry_fermat", "happy_tesla"].getD k "")
          "0123456789abcdef" ["/boring_pike", "/angry_fermat"] =
        (some (slashify (["boring_pike", "angry_fermat", "happy_tesla"].getD 2 "")),
          slashify (["boring_pike", "angry_fermat", "happy_tesla"].getD 2 "") ::
            ["/boring_pike", "/angry_fermat"])) ∧
    ((∀ k, k < 6 →
        slashify (["boring_pike", "angry_fermat", "happy_tesla"].getD k "") ∈
          ["/boring_pike", "/angry_fermat"]) →
      ("/" ++ truncateID "0123456789abcdef") ∉ ["/boring_pike", "/angry_fermat"] →
      generateNewName (fun k => ["boring_pike", "angry_fermat", "happy_tesla"].getD k "")
          "0123456789abcdef" ["/boring_pike", "/angry_fermat"] =
        (some ("/" ++ truncateID "0123456789abcdef"),
          ("/" ++ truncateID "0123456789abcdef") :: ["/boring_pike", "/angry_fermat"])) ∧
    (12 ≤ ("0123456789abcdef" : String).length →
      (truncateID "0123456789abcdef").length = 12) :=
  generate_new_name_attempts
    (fun k => ["boring_pike", "angry_fermat", "happy_tesla"].getD k "")
    "0123456789abcdef" ["/boring_pike", "/angry_fermat"] 2

/-! ## Daemon construction flag validation (daemon/daemon.go,
`NewDaemonFromDirectory`) -/

/-- Validation errors returned by the mutually-incompatible-flag checks at
the top of `NewDaemonFromDirectory` (daemon.go lines 685-691). -/
inductive DaemonConfigError
  | bridgeIfaceWithBridgeIP
  | iptablesOffWithIccOff
deriving DecidableEq, Repr

/-- Embedding of the incompatible-flag checks of `NewDaemonFromDirectory`:
a non-empty -b bridge interface together with a non-empty --bip bridge IP
is rejected first; otherwise iptables support disabled together with
inter-container communication disabled is rejected.  A `some` result makes
`NewDaemonFromDirectory` return the error before any daemon state is
constructed. -/
def newDaemonFlagCheck (bridgeIface bridgeIP : String)
    (enableIptables interContainerComm : Bool) : Option DaemonConfigError :=
  if bridgeIface ≠ "" ∧ bridgeIP ≠ "" then
    some DaemonConfigError.bridgeIfaceWithBridgeIP
  else if enableIptables = false ∧ interContainerComm = false then
    some DaemonConfigError.iptablesOffWithIccOff
  else
    none

/-- C9: daemon construction fails with a validation error when both the
-b bridge interface and the --bip bridge IP are set, and when iptables
support and inter-container communication are both disabled; in both
cases no daemon is created (the check returns before construction). -/
theorem new_daemon_rejects_incompatible_flags (bridgeIface bridgeIP : String)
    (enableIptables interContainerComm : Bool) :
    (bridgeIface ≠ "" → bridgeIP ≠ "" →
      newDaemonFlagCheck bridgeIface bridgeIP enableIptables interContainerComm =
        some DaemonConfigError.bridgeIfaceWithBridgeIP) ∧
    (enableIptables = false → interContainerComm = false →
      (newDaemonFlagCheck bridgeIface bridgeIP
          enableIptables interContainerComm).isSome = true) := by
  constructor
  · intro h1 h2
    rw [newDaemonFlagCheck, if_pos ⟨h1, h2⟩]
  · intro h1 h2
    rw [newDaemonFlagCheck]
    split
    · simp
    · rw [if_pos ⟨h1, h2⟩]; simp

/-- Witness for `new_daemon_rejects_incompatible_flags` at a concrete
conflicting configuration (-b br0 together with --bip, and iptables and
icc both disabled). -/
theorem new_daemon_rejects_incompatible_flags_witness :
    (("br0" : String) ≠ "" → ("10.9.8.1/24" : String) ≠ "" →
      newDaemonFlagCheck "br0" "10.9.8.1/24" false false =
        some DaemonConfigError.bridgeIfaceWithBridgeIP) ∧
    (false = false → false = false →
      (newDaemonFlagCheck "br0" "10.9.8.1/24" false false).isSome = true) :=
  new_daemon_rejects_incompatible_flags "br0" "10.9.8.1/24" false false
